import Mathlib

/-!
# Retro Task RPG – Game State Engine: shallow embedding and verification

This file embeds the game-state engine of `main.py` (Retro Task RPG V7.9)
in Lean 4 and proves the spec's testable properties about it.

Modelling conventions:
* Python `dict` state is a Lean structure with one field per key; mutation
  becomes functional update (value semantics).
* Calendar days, ISO-week ids and wall-clock timestamps are modelled as
  integers (day number, week number, seconds).  Functions that read the
  clock in Python (`date.today()`, `datetime.now()`, ...) take the current
  instant as an explicit parameter.
* Python's unbounded `int` is `Int` (or `Nat` for fields that the engine
  keeps nonnegative and only ever compares/subtracts under a guard).
* The two float computations of the engine are exact in binary floating
  point on every value the engine produces, so they are modelled by exact
  rational/integer arithmetic: see `ceil125` and `pyRound`.
* `add_log` prefixes each line with a wall-clock timestamp in Python; the
  timestamp prefix is abstracted away (only the message is kept), since no
  property here depends on it.  `play_sound` renders HTML and touches no
  state; it is omitted.
-/

/-- `VERSION` from `main.py`. -/
def VERSION : String := "7.9"

/-- `LEVEL_MINUTES_BONUS`: minutes granted per level up. -/
def LEVEL_MINUTES_BONUS : Nat := 5

/-- `HARDCORE_GLOBAL_BONUS = 1.25` (exactly 5/4 in binary floating point). -/
def HARDCORE_GLOBAL_BONUS : ℚ := 5 / 4

/-- `DIFF_MULTIPLIER.get(d, 1.0)`: the per-difficulty multiplier dictionary
with its default.  All four values are exactly representable floats. -/
def DIFF_MULTIPLIER (d : String) : ℚ :=
  if d = "Noob" then 1
  else if d = "Normal" then 3 / 2
  else if d = "Hardcore" then 5 / 2
  else if d = "Höllenfeuer" then 4
  else 1

/-- `LEVEL_BADGES` from `main.py`. -/
def LEVEL_BADGES : List (Nat × String) :=
  [(5, "Bronze"), (10, "Silver"), (20, "Gold"), (30, "Platinum"), (40, "Diamond")]

/-- The milestone list of `check_special_achievements`. -/
def MILESTONES : List Nat := [10, 25, 50, 100, 200]

/-- Python's built-in `round` (round half to even) on an exact rational
value.  Every float that reaches `round` in the source is a product of
small integers with 1.0/1.5/2.5/4.0/1.25 and hence exactly representable,
so the rational model is exact. -/
def pyRound (q : ℚ) : ℤ :=
  let f : ℤ := ⌊q⌋
  let r : ℚ := q - f
  if r < 1 / 2 then f
  else if 1 / 2 < r then f + 1
  else if f % 2 = 0 then f else f + 1

/-- `int(math.ceil(t * 1.25))` for a nonnegative integer threshold `t`.
`1.25` is exactly `5/4` in binary floating point and `t * 1.25` is exact on
every threshold the engine reaches, so this is `⌈5t/4⌉ = (5t+3)/4`. -/
def ceil125 (t : Nat) : Nat := (5 * t + 3) / 4

/-- The f-string `f"Grinder {m}"` of `check_special_achievements`. -/
def grinderName (m : Nat) : String := "Grinder " ++ toString m

/-- The `player` sub-dictionary of the state. -/
structure Player where
  name : String
  level : Nat
  xp : Nat
  xp_for_next : Nat
  streak_days : Nat
  last_checkin : Option Int
  minutes_bank : Int
  quotes_level_index : Nat
  deriving DecidableEq

/-- The `timers` sub-dictionary of the state. -/
structure Timers where
  pomodoro_length : Nat
  pomodoro_start : Option Int
  pomodoro_running : Bool
  pomodoro_paused_seconds : Int
  session_start : Option Int
  session_running : Bool
  session_target_minutes : Int
  session_spent_seconds : Int
  deriving DecidableEq

/-- One entry of `tasks.log`. -/
structure TaskEntry where
  ts : Int
  title : String
  difficulty : String
  xp_gain : Int
  minutes_gain : Int
  deriving DecidableEq

/-- The `tasks.counts` dictionary (fixed keys Noob/Normal/Hardcore/Höllenfeuer). -/
structure TaskCounts where
  noob : Nat
  normal : Nat
  hardcore : Nat
  hoellenfeuer : Nat
  deriving DecidableEq

/-- The `tasks` sub-dictionary of the state. -/
structure Tasks where
  log : List TaskEntry
  counts : TaskCounts
  deriving DecidableEq

/-- One daily quest record. -/
structure DailyQuest where
  xp : Nat
  minutes : Nat
  done_on : Option Int
  deriving DecidableEq

/-- One weekly quest record. -/
structure WeeklyQuest where
  xp : Nat
  minutes : Nat
  done_on_week : Option Int
  deriving DecidableEq

/-- The `quests` sub-dictionary, as association lists keyed by quest name. -/
structure Quests where
  daily : List (String × DailyQuest)
  weekly : List (String × WeeklyQuest)
  deriving DecidableEq

/-- The `achievements` sub-dictionary of the state. -/
structure Achievements where
  level_badges : List String
  special : List String
  deriving DecidableEq

/-- The `meta` sub-dictionary of the state. -/
structure Meta where
  version : String
  created : Int
  last_opened : Int
  hardcore : Bool
  dead : Bool
  deriving DecidableEq

/-- The whole game state (the persisted JSON document). -/
structure State where
  meta : Meta
  player : Player
  timers : Timers
  tasks : Tasks
  quests : Quests
  achievements : Achievements
  logs : List String
  deriving DecidableEq

/-- `DEFAULT_STATE`, parameterised by the module-load instant `t0`
(`datetime.utcnow()` at import time). -/
def DEFAULT_STATE (t0 : Int) : State :=
  { meta := { version := VERSION, created := t0, last_opened := t0,
              hardcore := false, dead := false }
    player := { name := "Player One", level := 1, xp := 0, xp_for_next := 100,
                streak_days := 0, last_checkin := none, minutes_bank := 0,
                quotes_level_index := 0 }
    timers := { pomodoro_length := 25, pomodoro_start := none,
                pomodoro_running := false, pomodoro_paused_seconds := 0,
                session_start := none, session_running := false,
                session_target_minutes := 0, session_spent_seconds := 0 }
    tasks := { log := [], counts := ⟨0, 0, 0, 0⟩ }
    quests := { daily := [("Power-Up Workout", ⟨30, 5, none⟩),
                          ("Deep Focus 60", ⟨40, 10, none⟩)],
                weekly := [("NoPo Weekly", ⟨60, 15, none⟩),
                           ("Project Push", ⟨80, 20, none⟩)] }
    achievements := { level_badges := [], special := [] }
    logs := [] }

/-- `add_log(state, text)` (timestamp prefix abstracted, see header). -/
def add_log (s : State) (text : String) : State :=
  { s with logs := s.logs ++ [text] }

/-- The `while xp >= xp_for_next` loop of `add_xp`, with explicit `fuel`
bounding the number of iterations; returns the player together with the
number of completed level-ups (`leveled`).  Whenever `xp_for_next ≥ 1` a
fuel of `xp + 1` is never exhausted, which is how `add_xp` below calls it
(for `xp_for_next = 0` the Python loop diverges). -/
def levelLoop : Nat → Player → Player × Nat
  | 0, p => (p, 0)
  | fuel + 1, p =>
    if p.xp_for_next ≤ p.xp then
      let p1 : Player :=
        { p with
          xp := p.xp - p.xp_for_next
          level := p.level + 1
          xp_for_next := ceil125 p.xp_for_next
          minutes_bank := p.minutes_bank + (LEVEL_MINUTES_BONUS : Int) }
      let r := levelLoop fuel p1
      (r.1, r.2 + 1)
    else (p, 0)

/-- The player-level effect of `add_xp(amount)` together with the number of
level-ups it performs. -/
def add_xp_player (p : Player) (amount : Int) : Player × Nat :=
  if amount ≤ 0 then (p, 0)
  else levelLoop (p.xp + amount.toNat + 1) { p with xp := p.xp + amount.toNat }

/-- The `for thresh, name in LEVEL_BADGES` loop of `maybe_add_level_badge`.
`held` is the snapshot `have = set(state.achievements.level_badges)` taken
before the loop, against which membership is tested. -/
def badgeLoop (lvl : Nat) (held : List String) : List (Nat × String) → State → State
  | [], s => s
  | (thresh, name) :: rest, s =>
    if thresh ≤ lvl ∧ name ∉ held then
      badgeLoop lvl held rest
        (add_log
          { s with achievements :=
              { s.achievements with
                level_badges := s.achievements.level_badges ++ [name] } }
          ("Badge freigeschaltet: " ++ name))
    else badgeLoop lvl held rest s

/-- `maybe_add_level_badge(state)`. -/
def maybe_add_level_badge (s : State) : State :=
  badgeLoop s.player.level s.achievements.level_badges LEVEL_BADGES s

/-- `add_xp(state, amount)`. -/
def add_xp (s : State) (amount : Int) : State :=
  let r := add_xp_player s.player amount
  let s1 := { s with player := r.1 }
  if r.2 = 0 then s1
  else
    let k := r.2
    maybe_add_level_badge
      (add_log s1 ("Level-Up x" ++ toString k ++ "! +" ++
        toString (LEVEL_MINUTES_BONUS * k) ++ " Min Spielzeit"))

/-- `counts[difficulty]` lookup on the fixed-key counts dictionary
(`none` models Python's `KeyError` for an unknown key). -/
def TaskCounts.get (c : TaskCounts) : String → Option Nat
  | "Noob" => some c.noob
  | "Normal" => some c.normal
  | "Hardcore" => some c.hardcore
  | "Höllenfeuer" => some c.hoellenfeuer
  | _ => none

/-- `counts[difficulty] += 1` (`none` models Python's `KeyError`). -/
def TaskCounts.bump (c : TaskCounts) : String → Option TaskCounts
  | "Noob" => some { c with noob := c.noob + 1 }
  | "Normal" => some { c with normal := c.normal + 1 }
  | "Hardcore" => some { c with hardcore := c.hardcore + 1 }
  | "Höllenfeuer" => some { c with hoellenfeuer := c.hoellenfeuer + 1 }
  | _ => none

/-- `sum(state.tasks.counts.values())`. -/
def totalTasks (c : TaskCounts) : Nat :=
  c.noob + c.normal + c.hardcore + c.hoellenfeuer

/-- The `for m in milestones` loop of `check_special_achievements`.  Unlike
the badge loop, membership is tested against the live `special` list. -/
def specialLoop (total : Nat) : List Nat → State → State
  | [], s => s
  | m :: rest, s =>
    if m ≤ total ∧ grinderName m ∉ s.achievements.special then
      specialLoop total rest
        (add_log
          { s with achievements :=
              { s.achievements with
                special := s.achievements.special ++ [grinderName m] } }
          ("Achievement freigeschaltet: " ++ grinderName m))
    else specialLoop total rest s

/-- `check_special_achievements(state)` (the dead `xp_total` placeholder of
the source, which is computed and never used, is dropped). -/
def check_special_achievements (s : State) : State :=
  specialLoop (totalTasks s.tasks.counts) MILESTONES s

/-- `complete_task(state, title, difficulty)`; `now` is `datetime.utcnow()`
for the log entry.  `none` models the `KeyError` Python raises on a
difficulty outside the four count keys. -/
def complete_task (s : State) (now : Int) (title : String) (difficulty : String) :
    Option State :=
  let base_xp : ℚ := 10
  let xp0 : ℚ := base_xp * DIFF_MULTIPLIER difficulty
  let xp1 : ℚ := if s.meta.hardcore then xp0 * HARDCORE_GLOBAL_BONUS else xp0
  let xp : Int := pyRound xp1
  let minutes_gain : Int := pyRound (1 * DIFF_MULTIPLIER difficulty)
  match s.tasks.counts.bump difficulty with
  | none => none
  | some counts1 =>
    let s1 : State :=
      { s with tasks :=
          { log := s.tasks.log ++
              [{ ts := now, title := title, difficulty := difficulty,
                 xp_gain := xp, minutes_gain := minutes_gain }]
            counts := counts1 } }
    let s2 := add_xp s1 xp
    let s3 : State :=
      { s2 with player :=
          { s2.player with minutes_bank := s2.player.minutes_bank + minutes_gain } }
    let s4 := add_log s3
      ("Task erledigt: " ++ title ++ " [" ++ difficulty ++ "] +" ++
       toString xp ++ " XP, +" ++ toString minutes_gain ++ " Min")
    some (check_special_achievements s4)

/-- `check_in(state)`; `today` is the current calendar day (`date.today()`).
Returns the updated state together with the boolean result. -/
def check_in (today : Int) (s : State) : State × Bool :=
  if s.player.last_checkin = some today then (s, false)
  else
    let streak : Nat :=
      match s.player.last_checkin with
      | some prev => if today - prev = 1 then s.player.streak_days + 1 else 1
      | none => 1
    let s1 : State :=
      { s with player :=
          { s.player with streak_days := streak, last_checkin := some today } }
    let s2 := add_log s1 ("Daily Check-in! Streak: " ++ toString streak ++ " Tage")
    if streak = 3 ∨ streak = 7 ∨ streak = 14 then
      let s3 := add_xp s2 20
      let s4 : State :=
        { s3 with player :=
            { s3.player with minutes_bank := s3.player.minutes_bank + 5 } }
      (add_log s4 "Streak-Bonus! +20 XP, +5 Min", true)
    else (s2, true)

/-- `reset_if_game_over(state)`; `now` is `datetime.utcnow()` in seconds.
`timedelta(days=7)` is 604800 seconds. -/
def reset_if_game_over (now : Int) (s : State) : State :=
  if now - s.meta.last_opened > 7 * 86400 then
    { s with meta := { s.meta with dead := true } }
  else s

/-- `respawn(state)` as CPython actually executes it.  `DEFAULT_STATE.copy()`
is a *shallow* copy, so `state.clear(); state.update(DEFAULT_STATE.copy())`
installs references to the module-level `DEFAULT_STATE`'s nested dicts and
lists, whose *current* contents are the parameter `dflt`.  Those nested
objects are pristine only as long as nothing has mutated them through an
alias — but `load_state`'s fresh-install fallback returns the same shallow
copy, and `respawn` itself creates such aliases, after which every engine
operation on the session state also mutates `DEFAULT_STATE`.  The result
keeps only `meta.version` from `s` and clears `dead`, on top of whatever
`dflt` now holds. -/
def respawn_aliased (dflt : State) (s : State) : State :=
  let version := s.meta.version
  let s2 : State := { dflt with meta := { dflt.meta with version := version, dead := false } }
  add_log s2 "Respawn! Zurück auf Anfang."

/-- `respawn(state)` in the special case where the module-level
`DEFAULT_STATE` still holds its pristine import-time contents (`t0` is the
module-load instant): a hard reset keeping only `meta.version`.  This is
the intended behaviour (the source comments it "Hard reset except meta
version") and coincides with `respawn_aliased (DEFAULT_STATE t0)`; see
`respawn_eq_aliased_pristine` and `C4_respawn_alias_bug` for how the
shallow copy breaks it in reachable executions. -/
def respawn (t0 : Int) (s : State) : State :=
  let version := s.meta.version
  let s1 := DEFAULT_STATE t0
  let s2 : State := { s1 with meta := { s1.meta with version := version, dead := false } }
  add_log s2 "Respawn! Zurück auf Anfang."

/-- `claim_daily_quest(state, name)`; `today` is the current calendar day. -/
def claim_daily_quest (today : Int) (s : State) (name : String) : State :=
  match s.quests.daily.lookup name with
  | none => s
  | some q =>
    if q.done_on = some today then s
    else
      let s1 := add_xp s (q.xp : Int)
      let s2 : State :=
        { s1 with player :=
            { s1.player with minutes_bank := s1.player.minutes_bank + (q.minutes : Int) } }
      let upd : String × DailyQuest → String × DailyQuest :=
        fun e => if e.1 = name then (e.1, { e.2 with done_on := some today }) else e
      let s3 : State := { s2 with quests := { s2.quests with daily := s2.quests.daily.map upd } }
      add_log s3 ("Daily Quest abgeschlossen: " ++ name ++ " +" ++
        toString q.xp ++ " XP, +" ++ toString q.minutes ++ " Min")

/-- `claim_weekly_quest(state, name)`; `wk` is the current ISO week id. -/
def claim_weekly_quest (wk : Int) (s : State) (name : String) : State :=
  match s.quests.weekly.lookup name with
  | none => s
  | some q =>
    if q.done_on_week = some wk then s
    else
      let s1 := add_xp s (q.xp : Int)
      let s2 : State :=
        { s1 with player :=
            { s1.player with minutes_bank := s1.player.minutes_bank + (q.minutes : Int) } }
      let upd : String × WeeklyQuest → String × WeeklyQuest :=
        fun e => if e.1 = name then (e.1, { e.2 with done_on_week := some wk }) else e
      let s3 : State := { s2 with quests := { s2.quests with weekly := s2.quests.weekly.map upd } }
      add_log s3 ("Weekly Quest abgeschlossen: " ++ name ++ " +" ++
        toString q.xp ++ " XP, +" ++ toString q.minutes ++ " Min")

/-- `seconds_since(iso)`: seconds from a stored timestamp to `now`
(`0` when no timestamp is stored). -/
def seconds_since (now : Int) : Option Int → Int
  | none => 0
  | some t => now - t

/-- `pomodoro_remaining_seconds(state)`. -/
def pomodoro_remaining_seconds (now : Int) (s : State) : Int :=
  if s.timers.pomodoro_running then
    max 0 ((s.timers.pomodoro_length : Int) * 60 -
      seconds_since now s.timers.pomodoro_start - s.timers.pomodoro_paused_seconds)
  else 0

/-- `start_pomodoro(state)`. -/
def start_pomodoro (now : Int) (s : State) : State :=
  if s.timers.pomodoro_running then s
  else
    let t1 : Timers :=
      { s.timers with pomodoro_start := some now, pomodoro_paused_seconds := 0, pomodoro_running := true }
    add_log { s with timers := t1 }
      ("Pomodoro gestartet: " ++ toString s.timers.pomodoro_length ++ " min")

/-- `stop_pomodoro(state)`.  Faithful to the source: the running flag is
cleared before `pomodoro_remaining_seconds` is read, so `rem = 0` there. -/
def stop_pomodoro (now : Int) (s : State) : State :=
  if s.timers.pomodoro_running then
    let s1 : State := { s with timers := { s.timers with pomodoro_running := false } }
    let rem := pomodoro_remaining_seconds now s1
    let spent := max 0 ((s1.timers.pomodoro_length : Int) * 60 - rem)
    add_log s1 ("Pomodoro gestoppt: " ++ toString (spent / 60) ++ "m " ++
      toString (spent % 60) ++ "s")
  else s

/-- `start_session(state, minutes)`; `now` is `datetime.now()`. -/
def start_session (now : Int) (s : State) (minutes : Int) : State :=
  if s.timers.session_running ∨ minutes ≤ 0 then s
  else if s.player.minutes_bank < minutes then
    add_log s "Nicht genug Spielzeit im Konto."
  else
    let p1 : Player := { s.player with minutes_bank := s.player.minutes_bank - minutes }
    let t1 : Timers :=
      { s.timers with session_target_minutes := minutes, session_start := some now, session_spent_seconds := 0, session_running := true }
    add_log { s with player := p1, timers := t1 }
      ("Spielzeit gestartet: " ++ toString minutes ++ " Minuten")

/-- `stop_session(state)`; `now` is `datetime.now()`.  `max(0, ·)` and the
floor division `// 60` of the nonnegative remainder are the natural-number
truncation and division. -/
def stop_session (now : Int) (s : State) : State :=
  if s.timers.session_running then
    let spent : Int := seconds_since now s.timers.session_start + s.timers.session_spent_seconds
    let rem : Nat := (s.timers.session_target_minutes * 60 - spent).toNat
    let credit : Nat := rem / 60
    let s1 : State :=
      if credit ≠ 0 then
        { s with player :=
            { s.player with minutes_bank := s.player.minutes_bank + (credit : Int) } }
      else s
    add_log { s1 with timers := { s1.timers with session_running := false } }
      ("Spielzeit gestoppt. Zurückerstattet: " ++ toString credit ++ " Minuten")
  else s

/-- `session_remaining_seconds(state)`. -/
def session_remaining_seconds (now : Int) (s : State) : Int :=
  if s.timers.session_running then
    max 0 (s.timers.session_target_minutes * 60 -
      (seconds_since now s.timers.session_start + s.timers.session_spent_seconds))
  else 0

/-! ### Derived definitions used in theorem statements -/

/-- The badges appended by one run of the badge loop: those entries whose
threshold is reached and whose name is not in the snapshot `held`. -/
def newBadges (lvl : Nat) (held : List String) (items : List (Nat × String)) : List String :=
  (items.filter (fun x => decide (x.1 ≤ lvl ∧ x.2 ∉ held))).map Prod.snd

/-- A concrete state about to reach level 6 (threshold 10, xp 0). -/
def levelSixState : State :=
  { DEFAULT_STATE 0 with player :=
      { (DEFAULT_STATE 0).player with level := 5, xp := 0, xp_for_next := 10 } }

/-- A state that has just checked in on day 3. -/
def checkedInState : State :=
  { DEFAULT_STATE 0 with player :=
      { (DEFAULT_STATE 0).player with last_checkin := some 3, streak_days := 1 } }

/-- The streak value `check_in` computes when the day is new: incremented
if the previous check-in was exactly yesterday, otherwise reset to 1. -/
def newStreak (today : Int) (p : Player) : Nat :=
  if p.last_checkin = some (today - 1) then p.streak_days + 1 else 1

/-- The player record right after the streak/date update of `check_in`,
before any streak bonus. -/
def checkedPlayer (today : Int) (p : Player) : Player :=
  { p with streak_days := newStreak today p, last_checkin := some today }

/-- A state whose streak reaches 3 on checking in on day 3. -/
def streakState : State :=
  { DEFAULT_STATE 0 with player :=
      { (DEFAULT_STATE 0).player with last_checkin := some 2, streak_days := 2 } }

/-- The XP a completed task awards, in the spec's form
`round(10 × difficulty_multiplier × (1.25 if hardcore else 1))`. -/
def taskXpGain (hardcore : Bool) (difficulty : String) : Int :=
  pyRound (10 * DIFF_MULTIPLIER difficulty *
    (if hardcore then HARDCORE_GLOBAL_BONUS else 1))

/-- The minutes a completed task credits: `round(1 × difficulty_multiplier)`. -/
def taskMinutesGain (difficulty : String) : Int :=
  pyRound (1 * DIFF_MULTIPLIER difficulty)

/-- What C3 asserts of one `complete_task` call: it succeeds, appends
exactly one log entry carrying the spec's XP/minutes formulas, increments
the chosen difficulty's counter (and the total) by one, routes the XP
through `add_xp` and then credits the minutes, and ends up holding
`Grinder m` exactly for reached or previously held milestones. -/
def CompleteTaskSpec (s : State) (now : Int) (title difficulty : String) : Prop :=
  ∃ s', complete_task s now title difficulty = some s' ∧
    s'.tasks.log = s.tasks.log ++
      [{ ts := now, title := title, difficulty := difficulty,
         xp_gain := taskXpGain s.meta.hardcore difficulty,
         minutes_gain := taskMinutesGain difficulty }] ∧
    s'.tasks.counts.get difficulty = (s.tasks.counts.get difficulty).map (· + 1) ∧
    totalTasks s'.tasks.counts = totalTasks s.tasks.counts + 1 ∧
    s'.player
      = { (add_xp_player s.player (taskXpGain s.meta.hardcore difficulty)).1 with
          minutes_bank :=
            (add_xp_player s.player (taskXpGain s.meta.hardcore difficulty)).1.minutes_bank
              + taskMinutesGain difficulty } ∧
    (∀ m ∈ MILESTONES,
      (grinderName m ∈ s'.achievements.special ↔
        grinderName m ∈ s.achievements.special ∨ m ≤ totalTasks s.tasks.counts + 1))

/-- A state with 10 banked minutes and no running session. -/
def poorState : State :=
  { DEFAULT_STATE 0 with player :=
      { (DEFAULT_STATE 0).player with minutes_bank := 10 } }

/-- A running 15-minute session started at instant 0 with an empty bank. -/
def runningState : State :=
  { DEFAULT_STATE 0 with timers :=
      { (DEFAULT_STATE 0).timers with session_running := true, session_start := some 0, session_target_minutes := 15 } }

/-- The session state of a fresh install after completing one task: no
save file exists, so `load_state()` returned the shallow
`DEFAULT_STATE.copy()` (whose nested dicts alias the module-level
`DEFAULT_STATE`), and then `complete_task(state, "t", "Noob")` ran at
instant 7.  Because every engine mutation is in place on those shared
nested objects, `DEFAULT_STATE`'s current contents are value-equal to this
very state. -/
def freshPlayedState : State :=
  (complete_task (DEFAULT_STATE 0) 7 "t" "Noob").getD (DEFAULT_STATE 0)

/-! ## Helper lemmas -/

/-- The threshold growth map keeps thresholds positive. -/
theorem ceil125_pos {t : Nat} (h : 1 ≤ t) : 1 ≤ ceil125 t := by
  unfold ceil125
  omega

/-- Accounting for the level-up loop: each iteration adds one level, one
minute bonus and one application of `ceil125`, and the returned counter
counts the iterations. -/
theorem levelLoop_accounting (fuel : Nat) (p : Player) :
    (levelLoop fuel p).1.level = p.level + (levelLoop fuel p).2 ∧
    (levelLoop fuel p).1.minutes_bank
      = p.minutes_bank + (LEVEL_MINUTES_BONUS : Int) * (levelLoop fuel p).2 ∧
    (levelLoop fuel p).1.xp_for_next = ceil125^[(levelLoop fuel p).2] p.xp_for_next := by
  induction fuel generalizing p with
  | zero => simp [levelLoop]
  | succ n ih =>
    rw [levelLoop]
    split
    · have h := ih { p with
        xp := p.xp - p.xp_for_next
        level := p.level + 1
        xp_for_next := ceil125 p.xp_for_next
        minutes_bank := p.minutes_bank + (LEVEL_MINUTES_BONUS : Int) }
      refine ⟨?_, ?_, ?_⟩
      · simpa [Nat.add_assoc, Nat.add_comm 1] using h.1
      · push_cast
        rw [h.2.1]
        push_cast
        ring
      · rw [h.2.2, Function.iterate_succ_apply]
    · simp

/-- If the loop is given more fuel than xp and a positive threshold, it
re-establishes `xp < xp_for_next`. -/
theorem levelLoop_invariant (fuel : Nat) (p : Player)
    (hpos : 1 ≤ p.xp_for_next) (hfuel : p.xp < fuel) :
    (levelLoop fuel p).1.xp < (levelLoop fuel p).1.xp_for_next := by
  induction fuel generalizing p with
  | zero => omega
  | succ n ih =>
    rw [levelLoop]
    split
    · rename_i hge
      exact ih { p with
          xp := p.xp - p.xp_for_next
          level := p.level + 1
          xp_for_next := ceil125 p.xp_for_next
          minutes_bank := p.minutes_bank + (LEVEL_MINUTES_BONUS : Int) }
        (ceil125_pos hpos) (by simp; omega)
    · rename_i hlt
      simpa using Nat.lt_of_not_le (by simpa using hlt)

/-- The level-up loop never touches the streak counter. -/
theorem levelLoop_streak (fuel : Nat) (p : Player) :
    (levelLoop fuel p).1.streak_days = p.streak_days := by
  induction fuel generalizing p with
  | zero => rfl
  | succ n ih =>
    rw [levelLoop]
    split
    · rw [ih]
    · rfl

/-- The level-up loop never touches the check-in date. -/
theorem levelLoop_checkin (fuel : Nat) (p : Player) :
    (levelLoop fuel p).1.last_checkin = p.last_checkin := by
  induction fuel generalizing p with
  | zero => rfl
  | succ n ih =>
    rw [levelLoop]
    split
    · rw [ih]
    · rfl

theorem add_xp_player_streak (p : Player) (a : Int) :
    (add_xp_player p a).1.streak_days = p.streak_days := by
  unfold add_xp_player
  split
  · rfl
  · rw [levelLoop_streak]

theorem add_xp_player_checkin (p : Player) (a : Int) :
    (add_xp_player p a).1.last_checkin = p.last_checkin := by
  unfold add_xp_player
  split
  · rfl
  · rw [levelLoop_checkin]


theorem badgeLoop_badges (lvl : Nat) (held : List String) :
    ∀ (items : List (Nat × String)) (s : State),
      (badgeLoop lvl held items s).achievements.level_badges
        = s.achievements.level_badges ++ newBadges lvl held items
  | [], s => by simp [badgeLoop, newBadges]
  | (thresh, name) :: rest, s => by
    rw [badgeLoop]
    split
    · rename_i h
      rw [badgeLoop_badges lvl held rest]
      simp [newBadges, add_log, h]
    · rename_i h
      rw [badgeLoop_badges lvl held rest]
      simp only [newBadges, List.filter_cons]
      rw [if_neg (by simpa using h)]

theorem badgeLoop_player (lvl : Nat) (held : List String) :
    ∀ (items : List (Nat × String)) (s : State),
      (badgeLoop lvl held items s).player = s.player
  | [], s => rfl
  | (thresh, name) :: rest, s => by
    rw [badgeLoop]
    split
    · rw [badgeLoop_player lvl held rest]; rfl
    · rw [badgeLoop_player lvl held rest]

theorem badgeLoop_special (lvl : Nat) (held : List String) :
    ∀ (items : List (Nat × String)) (s : State),
      (badgeLoop lvl held items s).achievements.special = s.achievements.special
  | [], s => rfl
  | (thresh, name) :: rest, s => by
    rw [badgeLoop]
    split
    · rw [badgeLoop_special lvl held rest]; rfl
    · rw [badgeLoop_special lvl held rest]

theorem badgeLoop_tasks (lvl : Nat) (held : List String) :
    ∀ (items : List (Nat × String)) (s : State),
      (badgeLoop lvl held items s).tasks = s.tasks
  | [], s => rfl
  | (thresh, name) :: rest, s => by
    rw [badgeLoop]
    split
    · rw [badgeLoop_tasks lvl held rest]; rfl
    · rw [badgeLoop_tasks lvl held rest]

theorem badgeLoop_quests (lvl : Nat) (held : List String) :
    ∀ (items : List (Nat × String)) (s : State),
      (badgeLoop lvl held items s).quests = s.quests
  | [], s => rfl
  | (thresh, name) :: rest, s => by
    rw [badgeLoop]
    split
    · rw [badgeLoop_quests lvl held rest]; rfl
    · rw [badgeLoop_quests lvl held rest]

theorem badgeLoop_meta (lvl : Nat) (held : List String) :
    ∀ (items : List (Nat × String)) (s : State),
      (badgeLoop lvl held items s).meta = s.meta
  | [], s => rfl
  | (thresh, name) :: rest, s => by
    rw [badgeLoop]
    split
    · rw [badgeLoop_meta lvl held rest]; rfl
    · rw [badgeLoop_meta lvl held rest]

theorem badgeLoop_timers (lvl : Nat) (held : List String) :
    ∀ (items : List (Nat × String)) (s : State),
      (badgeLoop lvl held items s).timers = s.timers
  | [], s => rfl
  | (thresh, name) :: rest, s => by
    rw [badgeLoop]
    split
    · rw [badgeLoop_timers lvl held rest]; rfl
    · rw [badgeLoop_timers lvl held rest]

theorem maybe_add_level_badge_badges (s : State) :
    (maybe_add_level_badge s).achievements.level_badges
      = s.achievements.level_badges ++
          newBadges s.player.level s.achievements.level_badges LEVEL_BADGES := by
  unfold maybe_add_level_badge
  rw [badgeLoop_badges]

theorem add_xp_player_eq (s : State) (a : Int) :
    (add_xp s a).player = (add_xp_player s.player a).1 := by
  simp only [add_xp, maybe_add_level_badge]
  split
  · rfl
  · rw [badgeLoop_player]; rfl

theorem add_xp_tasks (s : State) (a : Int) : (add_xp s a).tasks = s.tasks := by
  simp only [add_xp, maybe_add_level_badge]
  split
  · rfl
  · rw [badgeLoop_tasks]; rfl

theorem add_xp_quests (s : State) (a : Int) : (add_xp s a).quests = s.quests := by
  simp only [add_xp, maybe_add_level_badge]
  split
  · rfl
  · rw [badgeLoop_quests]; rfl

theorem add_xp_meta (s : State) (a : Int) : (add_xp s a).meta = s.meta := by
  simp only [add_xp, maybe_add_level_badge]
  split
  · rfl
  · rw [badgeLoop_meta]; rfl

theorem add_xp_timers (s : State) (a : Int) : (add_xp s a).timers = s.timers := by
  simp only [add_xp, maybe_add_level_badge]
  split
  · rfl
  · rw [badgeLoop_timers]; rfl

theorem add_xp_special (s : State) (a : Int) :
    (add_xp s a).achievements.special = s.achievements.special := by
  simp only [add_xp, maybe_add_level_badge]
  split
  · rfl
  · rw [badgeLoop_special]; rfl

theorem add_xp_badges_mono (s : State) (a : Int) :
    s.achievements.level_badges ⊆ (add_xp s a).achievements.level_badges := by
  simp only [add_xp, maybe_add_level_badge]
  split
  · exact fun x hx => hx
  · rw [badgeLoop_badges]
    exact fun x hx => List.mem_append_left _ hx

theorem specialLoop_player (total : Nat) :
    ∀ (ms : List Nat) (s : State), (specialLoop total ms s).player = s.player
  | [], s => rfl
  | m :: rest, s => by
    rw [specialLoop]
    split
    · rw [specialLoop_player total rest]; rfl
    · rw [specialLoop_player total rest]

theorem specialLoop_tasks (total : Nat) :
    ∀ (ms : List Nat) (s : State), (specialLoop total ms s).tasks = s.tasks
  | [], s => rfl
  | m :: rest, s => by
    rw [specialLoop]
    split
    · rw [specialLoop_tasks total rest]; rfl
    · rw [specialLoop_tasks total rest]

theorem specialLoop_quests (total : Nat) :
    ∀ (ms : List Nat) (s : State), (specialLoop total ms s).quests = s.quests
  | [], s => rfl
  | m :: rest, s => by
    rw [specialLoop]
    split
    · rw [specialLoop_quests total rest]; rfl
    · rw [specialLoop_quests total rest]

theorem specialLoop_meta (total : Nat) :
    ∀ (ms : List Nat) (s : State), (specialLoop total ms s).meta = s.meta
  | [], s => rfl
  | m :: rest, s => by
    rw [specialLoop]
    split
    · rw [specialLoop_meta total rest]; rfl
    · rw [specialLoop_meta total rest]

theorem specialLoop_timers (total : Nat) :
    ∀ (ms : List Nat) (s : State), (specialLoop total ms s).timers = s.timers
  | [], s => rfl
  | m :: rest, s => by
    rw [specialLoop]
    split
    · rw [specialLoop_timers total rest]; rfl
    · rw [specialLoop_timers total rest]

theorem specialLoop_badges (total : Nat) :
    ∀ (ms : List Nat) (s : State),
      (specialLoop total ms s).achievements.level_badges = s.achievements.level_badges
  | [], s => rfl
  | m :: rest, s => by
    rw [specialLoop]
    split
    · rw [specialLoop_badges total rest]; rfl
    · rw [specialLoop_badges total rest]

/-- The special-achievement loop only appends: old entries survive. -/
theorem specialLoop_special_mono (total : Nat) :
    ∀ (ms : List Nat) (s : State),
      s.achievements.special ⊆ (specialLoop total ms s).achievements.special
  | [], s => fun x hx => hx
  | m :: rest, s => by
    rw [specialLoop]
    split
    · intro x hx
      refine specialLoop_special_mono total rest _ ?_
      simp [add_log]
      exact Or.inl hx
    · exact specialLoop_special_mono total rest s

/-- Anything the special-achievement loop adds is a milestone name whose
milestone has been reached. -/
theorem specialLoop_special_of (total : Nat) :
    ∀ (ms : List Nat) (s : State) (x : String),
      x ∈ (specialLoop total ms s).achievements.special →
      x ∈ s.achievements.special ∨ ∃ m ∈ ms, x = grinderName m ∧ m ≤ total
  | [], s, x => fun hx => Or.inl hx
  | m :: rest, s, x => by
    rw [specialLoop]
    split
    · intro hx
      rcases specialLoop_special_of total rest _ x hx with h | ⟨m', hm', hx', hle'⟩
      · simp [add_log] at h
        rcases h with h | h
        · exact Or.inl h
        · rename_i hcond
          exact Or.inr ⟨m, List.mem_cons_self m rest, h, hcond.1⟩
      · exact Or.inr ⟨m', List.mem_cons_of_mem m hm', hx', hle'⟩
    · intro hx
      rcases specialLoop_special_of total rest s x hx with h | ⟨m', hm', hx', hle'⟩
      · exact Or.inl h
      · exact Or.inr ⟨m', List.mem_cons_of_mem m hm', hx', hle'⟩

/-- A reached milestone's name is present after the loop. -/
theorem specialLoop_special_ge (total : Nat) :
    ∀ (ms : List Nat) (s : State) (m : Nat),
      m ∈ ms → m ≤ total → grinderName m ∈ (specialLoop total ms s).achievements.special
  | [], s, m => by intro h; cases h
  | m0 :: rest, s, m => by
    intro hmem hle
    rcases List.mem_cons.mp hmem with rfl | hmem'
    · rw [specialLoop]
      split
      · refine specialLoop_special_mono total rest _ ?_
        simp [add_log]
      · rename_i hcond
        have : grinderName m ∈ s.achievements.special := by
          by_contra hnot
          exact hcond ⟨hle, hnot⟩
        exact specialLoop_special_mono total rest s this
    · rw [specialLoop]
      split
      · exact specialLoop_special_ge total rest _ m hmem' hle
      · exact specialLoop_special_ge total rest s m hmem' hle

/-- Distinct badge names identify their entries in `LEVEL_BADGES`. -/
theorem badge_names_inj :
    ∀ x ∈ LEVEL_BADGES, ∀ y ∈ LEVEL_BADGES, x.2 = y.2 → x = y := by decide

/-- Membership in the freshly appended badge list. -/
theorem newBadges_mem (lvl : Nat) (base : List String) (thresh : Nat) (name : String)
    (hmem : (thresh, name) ∈ LEVEL_BADGES) :
    name ∈ newBadges lvl base LEVEL_BADGES ↔ thresh ≤ lvl ∧ name ∉ base := by
  unfold newBadges
  constructor
  · intro hx
    rcases List.mem_map.mp hx with ⟨x, hxf, hxname⟩
    rcases List.mem_filter.mp hxf with ⟨hxLB, hpx⟩
    have hxeq : x = (thresh, name) := badge_names_inj x hxLB (thresh, name) hmem hxname
    subst hxeq
    simpa using hpx
  · intro ⟨h1, h2⟩
    refine List.mem_map.mpr ⟨(thresh, name), List.mem_filter.mpr ⟨hmem, ?_⟩, rfl⟩
    simpa using ⟨h1, h2⟩

/-- The badge names of `LEVEL_BADGES` are distinct, hence so are the
appended ones. -/
theorem newBadges_nodup (lvl : Nat) (base : List String) :
    (newBadges lvl base LEVEL_BADGES).Nodup := by
  have hsub : (LEVEL_BADGES.filter (fun x => decide (x.1 ≤ lvl ∧ x.2 ∉ base))).Sublist LEVEL_BADGES :=
    List.filter_sublist _
  have hmap := hsub.map Prod.snd
  exact (show (LEVEL_BADGES.map Prod.snd).Nodup by decide).sublist hmap

/-- C1: for every state with `0 ≤ xp < xp_for_next` and every award
`amount ≥ 0`, `add_xp` re-establishes `xp < xp_for_next` (in this embedding
`xp : ℕ`, so `0 ≤ xp` is implicit). -/
theorem C1_add_xp_invariant (s : State) (amount : Int)
    (h1 : s.player.xp < s.player.xp_for_next) (h2 : 0 ≤ amount) :
    (add_xp s amount).player.xp < (add_xp s amount).player.xp_for_next := by
  rw [add_xp_player_eq]
  unfold add_xp_player
  split
  · exact h1
  · exact levelLoop_invariant _ _
      (show 1 ≤ s.player.xp_for_next by omega)
      (show s.player.xp + amount.toNat < s.player.xp + amount.toNat + 1 by omega)

theorem C1_add_xp_invariant_witness :
    (add_xp (DEFAULT_STATE 0) 250).player.xp
      < (add_xp (DEFAULT_STATE 0) 250).player.xp_for_next :=
  C1_add_xp_invariant (DEFAULT_STATE 0) 250 (by decide) (by decide)

/-- C2: if `add_xp` performs exactly `k` level-ups then the level rises by
`k`, the minute bank by `k · LEVEL_MINUTES_BONUS`, and the threshold is
`ceil125` iterated `k` times; and concretely, from level 1 with threshold
100, `add_xp 250` performs two level-ups ending at level 3, `xp = 25`,
threshold `⌈156.25⌉ = 157` (the spec's "≈156") and `minutes_bank + 10`. -/
theorem C2_level_up_accounting (s : State) (amount : Int)
    (h : 1 ≤ s.player.xp_for_next) :
    ((add_xp s amount).player.level
        = s.player.level + (add_xp_player s.player amount).2 ∧
     (add_xp s amount).player.minutes_bank
        = s.player.minutes_bank + (LEVEL_MINUTES_BONUS : Int) * (add_xp_player s.player amount).2 ∧
     (add_xp s amount).player.xp_for_next
        = ceil125^[(add_xp_player s.player amount).2] s.player.xp_for_next) ∧
    ((add_xp_player (DEFAULT_STATE 0).player 250).2 = 2 ∧
     (add_xp (DEFAULT_STATE 0) 250).player.level = 3 ∧
     (add_xp (DEFAULT_STATE 0) 250).player.xp = 25 ∧
     (add_xp (DEFAULT_STATE 0) 250).player.xp_for_next = 157 ∧
     (add_xp (DEFAULT_STATE 0) 250).player.minutes_bank
        = (DEFAULT_STATE 0).player.minutes_bank + 10) := by
  constructor
  · rw [add_xp_player_eq]
    unfold add_xp_player
    split
    · simp
    · exact levelLoop_accounting _ _
  · exact ⟨by decide, by decide, by decide, by decide, by decide⟩

theorem C2_level_up_accounting_witness :
    (1 ≤ (DEFAULT_STATE 0).player.xp_for_next) ∧
    (add_xp (DEFAULT_STATE 0) 250).player.level
      = (DEFAULT_STATE 0).player.level + (add_xp_player (DEFAULT_STATE 0).player 250).2 :=
  ⟨by decide, ((C2_level_up_accounting (DEFAULT_STATE 0) 250 (by decide)).1).1⟩


/-- C9 as stated is false: after `add_xp` levels `levelSixState` to
level 6, the badge with the first threshold `≥ 6` ("Silver", threshold 10,
not already held) is *not* added — the code awards badges with threshold
`≤` the current level, not `≥`. -/
theorem C9_counterexample :
    (10, "Silver") ∈ LEVEL_BADGES ∧
    "Silver" ∉ levelSixState.achievements.level_badges ∧
    (add_xp levelSixState 10).player.level = 6 ∧
    (∀ x ∈ LEVEL_BADGES, 6 ≤ x.1 → 10 ≤ x.1) ∧
    "Silver" ∉ (add_xp levelSixState 10).achievements.level_badges := by decide

/-- C9 amended: `maybe_add_level_badge` (invoked by `add_xp` after each
leveling burst) awards exactly the badges whose threshold is `≤` the
current level and which are not already held, and never duplicates a badge
already held. -/
theorem C9_amended_badges (s : State) (thresh : Nat) (name : String)
    (hmem : (thresh, name) ∈ LEVEL_BADGES) :
    (name ∈ (maybe_add_level_badge s).achievements.level_badges ↔
      name ∈ s.achievements.level_badges ∨ thresh ≤ s.player.level) ∧
    ((maybe_add_level_badge s).achievements.level_badges.count name
      = s.achievements.level_badges.count name +
        (if thresh ≤ s.player.level ∧ name ∉ s.achievements.level_badges then 1 else 0)) := by
  rw [maybe_add_level_badge_badges]
  have hmemiff := newBadges_mem s.player.level s.achievements.level_badges thresh name hmem
  constructor
  · rw [List.mem_append, hmemiff]
    by_cases hin : name ∈ s.achievements.level_badges <;> simp [hin]
  · rw [List.count_append]
    congr 1
    by_cases hp : thresh ≤ s.player.level ∧ name ∉ s.achievements.level_badges
    · rw [if_pos hp]
      exact List.count_eq_one_of_mem (newBadges_nodup _ _) (hmemiff.mpr hp)
    · rw [if_neg hp]
      exact List.count_eq_zero.mpr (fun hc => hp (hmemiff.mp hc))

theorem C9_amended_badges_witness :
    ((5, "Bronze") ∈ LEVEL_BADGES) ∧
    (("Bronze" ∈ (maybe_add_level_badge levelSixState).achievements.level_badges ↔
       "Bronze" ∈ levelSixState.achievements.level_badges ∨ 5 ≤ levelSixState.player.level) ∧
     ((maybe_add_level_badge levelSixState).achievements.level_badges.count "Bronze"
       = levelSixState.achievements.level_badges.count "Bronze" +
         (if 5 ≤ levelSixState.player.level ∧
             "Bronze" ∉ levelSixState.achievements.level_badges then 1 else 0))) :=
  ⟨by decide, C9_amended_badges levelSixState 5 "Bronze" (by decide)⟩

/-- `respawn` is exactly `respawn_aliased` applied to the pristine
import-time `DEFAULT_STATE`: the two definitions share the source's code
path and differ only in what the module-level default currently holds. -/
theorem respawn_eq_aliased_pristine (t0 : Int) (s : State) :
    respawn t0 s = respawn_aliased (DEFAULT_STATE t0) s := rfl

/-- What the *intended* respawn does (pristine module default, i.e. no
alias has mutated `DEFAULT_STATE` yet — the situation the source's "Hard
reset except meta version" comment and the spec describe): empty task log,
empty achievements, cleared quest markers, dead flag off, version
preserved. -/
theorem respawn_resets_defaults (t0 : Int) (s : State) :
    (respawn t0 s).tasks.log = [] ∧
    (respawn t0 s).achievements.level_badges = [] ∧
    (respawn t0 s).achievements.special = [] ∧
    (∀ e ∈ (respawn t0 s).quests.daily, e.2.done_on = none) ∧
    (∀ e ∈ (respawn t0 s).quests.weekly, e.2.done_on_week = none) ∧
    (respawn t0 s).meta.dead = false ∧
    (respawn t0 s).meta.version = s.meta.version := by
  refine ⟨rfl, rfl, rfl, ?_, ?_, rfl, rfl⟩
  · intro e he
    simp [respawn, DEFAULT_STATE, add_log] at he
    rcases he with he | he <;> simp [he]
  · intro e he
    simp [respawn, DEFAULT_STATE, add_log] at he
    rcases he with he | he <;> simp [he]

/-- C5: a check-in on a day whose check-in already happened returns `false`
and changes nothing at all (so streak, last_checkin, xp, level and
minutes_bank are all untouched). -/
theorem C5_checkin_same_day (s : State) (today : Int)
    (h : s.player.last_checkin = some today) :
    check_in today s = (s, false) := by
  unfold check_in
  rw [if_pos h]


theorem C5_checkin_same_day_witness :
    check_in 3 checkedInState = (checkedInState, false) :=
  C5_checkin_same_day checkedInState 3 (by decide)



/-- C6: on a new day, check-in succeeds, increments the streak exactly when
the previous check-in was yesterday (else resets it to 1), stamps today,
and on streak 3, 7 or 14 additionally runs `add_xp 20` and credits
5 minutes. -/
theorem C6_checkin_new_day (s : State) (today : Int)
    (h : s.player.last_checkin ≠ some today) :
    ((check_in today s).2 = true) ∧
    ((check_in today s).1.player.streak_days = newStreak today s.player) ∧
    ((check_in today s).1.player.last_checkin = some today) ∧
    ((newStreak today s.player = 3 ∨ newStreak today s.player = 7 ∨
        newStreak today s.player = 14) →
      (check_in today s).1.player
        = { (add_xp_player (checkedPlayer today s.player) 20).1 with
            minutes_bank :=
              (add_xp_player (checkedPlayer today s.player) 20).1.minutes_bank + 5 }) ∧
    (¬(newStreak today s.player = 3 ∨ newStreak today s.player = 7 ∨
        newStreak today s.player = 14) →
      (check_in today s).1.player = checkedPlayer today s.player) := by
  have hstreak :
      (match s.player.last_checkin with
        | some prev => if today - prev = 1 then s.player.streak_days + 1 else 1
        | none => 1) = newStreak today s.player := by
    unfold newStreak
    cases hlc : s.player.last_checkin with
    | none => simp
    | some prev =>
      simp only [Option.some.injEq]
      by_cases hp : today - prev = 1
      · rw [if_pos hp, if_pos (by omega)]
      · rw [if_neg hp, if_neg (by omega)]
  unfold check_in
  rw [if_neg h]
  simp only [hstreak]
  by_cases hb : newStreak today s.player = 3 ∨ newStreak today s.player = 7 ∨
      newStreak today s.player = 14
  · rw [if_pos hb]
    refine ⟨rfl, ?_, ?_, ?_, fun hc => absurd hb hc⟩
    · simp only [add_log]
      rw [add_xp_player_eq, add_xp_player_streak]
    · simp only [add_log]
      rw [add_xp_player_eq, add_xp_player_checkin]
    · intro _
      simp only [add_log]
      rw [add_xp_player_eq]
      rfl
  · rw [if_neg hb]
    exact ⟨rfl, rfl, rfl, fun hc => absurd hc hb, fun _ => rfl⟩


theorem C6_checkin_new_day_witness :
    ((check_in 3 streakState).2 = true) ∧
    ((check_in 3 streakState).1.player.streak_days = newStreak 3 streakState.player) :=
  ⟨(C6_checkin_new_day streakState 3 (by decide)).1,
   (C6_checkin_new_day streakState 3 (by decide)).2.1⟩

/-- C7 as stated ("no state mutation") is false: the rejected request does
mutate the state, appending the warning line to the textual log.  Here
`poorState` has `minutes_bank = 10`, no running session, and requests 15
minutes. -/
theorem C7_counterexample :
    poorState.timers.session_running = false ∧
    poorState.player.minutes_bank = 10 ∧
    start_session 0 poorState 15 ≠ poorState := by decide

/-- C7 amended: with no running session and a positive request exceeding
the bank, `start_session` rejects the request with a warning and mutates no
state other than appending the warning to the textual log — in particular
the bank is unchanged and no session is started. -/
theorem C7_insufficient_bank (s : State) (now minutes : Int)
    (hrun : s.timers.session_running = false) (hpos : 0 < minutes)
    (hbank : s.player.minutes_bank < minutes) :
    (start_session now s minutes).player = s.player ∧
    (start_session now s minutes).timers = s.timers ∧
    (start_session now s minutes).tasks = s.tasks ∧
    (start_session now s minutes).quests = s.quests ∧
    (start_session now s minutes).achievements = s.achievements ∧
    (start_session now s minutes).meta = s.meta ∧
    (start_session now s minutes).logs = s.logs ++ ["Nicht genug Spielzeit im Konto."] := by
  unfold start_session
  rw [if_neg (by simp [hrun]; omega), if_pos hbank]
  exact ⟨rfl, rfl, rfl, rfl, rfl, rfl, rfl⟩

theorem C7_insufficient_bank_witness :
    (start_session 0 poorState 15).player = poorState.player ∧
    (start_session 0 poorState 15).timers = poorState.timers :=
  ⟨(C7_insufficient_bank poorState 0 15 (by decide) (by decide) (by decide)).1,
   (C7_insufficient_bank poorState 0 15 (by decide) (by decide) (by decide)).2.1⟩

/-- C8: with a running session, `stop_session` credits exactly
`⌊max(0, target·60 − (elapsed + spent))/60⌋` minutes back and clears the
running flag; with no running session it changes nothing. -/
theorem C8_stop_session (s : State) (now : Int) :
    (s.timers.session_running = true →
      (stop_session now s).player.minutes_bank
        = s.player.minutes_bank +
            (((s.timers.session_target_minutes * 60 -
                (seconds_since now s.timers.session_start +
                 s.timers.session_spent_seconds)).toNat / 60 : Nat) : Int) ∧
      (stop_session now s).timers.session_running = false) ∧
    (s.timers.session_running = false → stop_session now s = s) := by
  constructor
  · intro hrun
    simp only [stop_session, hrun, if_true, add_log]
    constructor
    · split
      · rfl
      · rename_i hc
        have h0 : ((s.timers.session_target_minutes * 60 -
            (seconds_since now s.timers.session_start +
             s.timers.session_spent_seconds)).toNat / 60 : Nat) = 0 := by
          simpa using hc
        rw [h0]
        simp
    · trivial
  · intro hnot
    unfold stop_session
    rw [if_neg (by simp [hnot])]

theorem C8_stop_session_witness :
    (stop_session 300 runningState).player.minutes_bank
      = runningState.player.minutes_bank +
          (((runningState.timers.session_target_minutes * 60 -
              (seconds_since 300 runningState.timers.session_start +
               runningState.timers.session_spent_seconds)).toNat / 60 : Nat) : Int) ∧
    (stop_session 300 runningState).timers.session_running = false :=
  (C8_stop_session runningState 300).1 rfl

/-- The spec's task-XP formula equals the code's two-step computation. -/
theorem taskXpGain_eq (hc : Bool) (d : String) :
    taskXpGain hc d
      = pyRound (if hc then (10 * DIFF_MULTIPLIER d) * HARDCORE_GLOBAL_BONUS
                 else 10 * DIFF_MULTIPLIER d) := by
  cases hc <;> simp [taskXpGain, mul_assoc]

/-- Distinct milestones have distinct achievement names. -/
theorem milestone_inj :
    ∀ a ∈ MILESTONES, ∀ b ∈ MILESTONES, grinderName a = grinderName b → a = b := by decide

theorem check_special_player (s : State) :
    (check_special_achievements s).player = s.player := specialLoop_player _ _ _

theorem check_special_tasks (s : State) :
    (check_special_achievements s).tasks = s.tasks := specialLoop_tasks _ _ _

theorem check_special_quests (s : State) :
    (check_special_achievements s).quests = s.quests := specialLoop_quests _ _ _

theorem check_special_meta (s : State) :
    (check_special_achievements s).meta = s.meta := specialLoop_meta _ _ _

theorem check_special_timers (s : State) :
    (check_special_achievements s).timers = s.timers := specialLoop_timers _ _ _

theorem check_special_badges (s : State) :
    (check_special_achievements s).achievements.level_badges
      = s.achievements.level_badges := specialLoop_badges _ _ _


/-- `check_special_achievements` grants `Grinder m` exactly when the total
task count has reached `m` or the achievement was already held. -/
theorem check_special_spec (s4 : State) (m : Nat) (hm : m ∈ MILESTONES) :
    grinderName m ∈ (check_special_achievements s4).achievements.special ↔
      grinderName m ∈ s4.achievements.special ∨ m ≤ totalTasks s4.tasks.counts := by
  unfold check_special_achievements
  constructor
  · intro hx
    rcases specialLoop_special_of _ _ _ _ hx with h | ⟨m', hm', heq, hle⟩
    · exact Or.inl h
    · rcases milestone_inj m hm m' hm' heq with rfl
      exact Or.inr hle
  · intro h
    rcases h with h | hle
    · exact specialLoop_special_mono _ _ _ h
    · exact specialLoop_special_ge _ _ _ m hm hle

/-- Full behaviour of `complete_task` when the difficulty is a valid counts
key (so the bump succeeds). -/
theorem complete_task_some (s : State) (now : Int) (title difficulty : String)
    (counts1 : TaskCounts) (hb : s.tasks.counts.bump difficulty = some counts1) :
    ∃ s', complete_task s now title difficulty = some s' ∧
      s'.tasks.log = s.tasks.log ++
        [{ ts := now, title := title, difficulty := difficulty,
           xp_gain := taskXpGain s.meta.hardcore difficulty,
           minutes_gain := taskMinutesGain difficulty }] ∧
      s'.tasks.counts = counts1 ∧
      s'.player
        = { (add_xp_player s.player (taskXpGain s.meta.hardcore difficulty)).1 with
            minutes_bank :=
              (add_xp_player s.player (taskXpGain s.meta.hardcore difficulty)).1.minutes_bank
                + taskMinutesGain difficulty } ∧
      (∀ m ∈ MILESTONES,
        (grinderName m ∈ s'.achievements.special ↔
          grinderName m ∈ s.achievements.special ∨ m ≤ totalTasks counts1)) := by
  simp only [complete_task, hb]
  refine ⟨_, rfl, ?_, ?_, ?_, ?_⟩
  · rw [check_special_tasks]
    simp only [add_log]
    rw [add_xp_tasks]
    rw [taskXpGain_eq]
    rfl
  · rw [check_special_tasks]
    simp only [add_log]
    rw [add_xp_tasks]
  · rw [check_special_player]
    simp only [add_log]
    rw [add_xp_player_eq, taskXpGain_eq]
    rfl
  · intro m hm
    rw [check_special_spec _ m hm]
    simp only [add_log]
    rw [add_xp_special, add_xp_tasks]

/-- C3: for every non-empty title and each of the four difficulties,
`complete_task` awards `round(10·mult·(1.25 if hardcore else 1))` XP and
`round(1·mult)` minutes (Python's banker's rounding), appends exactly one
task-log entry, increments that difficulty's counter, applies the XP via
`add_xp` then credits the minutes, and grants `Grinder m` exactly for
reached milestones in {10,25,50,100,200} not already held. -/
theorem C3_complete_task (s : State) (now : Int) (title difficulty : String)
    (ht : title ≠ "")
    (hd : difficulty = "Noob" ∨ difficulty = "Normal" ∨ difficulty = "Hardcore" ∨
      difficulty = "Höllenfeuer") :
    CompleteTaskSpec s now title difficulty := by
  have main : ∀ counts1 : TaskCounts, s.tasks.counts.bump difficulty = some counts1 →
      totalTasks counts1 = totalTasks s.tasks.counts + 1 →
      counts1.get difficulty = (s.tasks.counts.get difficulty).map (· + 1) →
      CompleteTaskSpec s now title difficulty := by
    intro counts1 hb htot hget
    obtain ⟨s', hsome, hlog, hcounts, hplayer, hspec⟩ :=
      complete_task_some s now title difficulty counts1 hb
    refine ⟨s', hsome, hlog, ?_, ?_, hplayer, fun m hm => ?_⟩
    · rw [hcounts, hget]
    · rw [hcounts]; exact htot
    · rw [hspec m hm, htot]
  rcases hd with rfl | rfl | rfl | rfl
  · exact main _ rfl (by simp only [totalTasks]; omega) rfl
  · exact main _ rfl (by simp only [totalTasks]; omega) rfl
  · exact main _ rfl (by simp only [totalTasks]; omega) rfl
  · exact main _ rfl (by simp only [totalTasks]; omega) rfl

theorem C3_complete_task_witness :
    ("Aufgabe" ≠ "") ∧ CompleteTaskSpec (DEFAULT_STATE 0) 5 "Aufgabe" "Normal" :=
  ⟨by decide,
   C3_complete_task (DEFAULT_STATE 0) 5 "Aufgabe" "Normal" (by decide)
     (Or.inr (Or.inl rfl))⟩

/-- C4 names the code's slip: `respawn` does *not* reset the state in
reachable executions, because `DEFAULT_STATE.copy()` is shallow.  On a
fresh install `load_state()` hands out the shallow copy, `complete_task`
mutates the aliased nested dicts in place (so the module default's current
contents equal `freshPlayedState`), and the subsequent
`respawn` — `respawn_aliased` applied to those polluted contents — keeps
the task-log entry instead of clearing it.  The last conjunct contrasts
this with the intended pristine reset, which does empty the log. -/
theorem C4_respawn_alias_bug :
    freshPlayedState.tasks.log.length = 1 ∧
    (respawn_aliased freshPlayedState freshPlayedState).tasks.log
      = freshPlayedState.tasks.log ∧
    (respawn_aliased freshPlayedState freshPlayedState).tasks.log ≠ [] ∧
    (respawn_aliased freshPlayedState freshPlayedState).meta.version
      = freshPlayedState.meta.version ∧
    (respawn_aliased freshPlayedState freshPlayedState).meta.dead = false ∧
    (respawn 0 freshPlayedState).tasks.log = [] := by
  obtain ⟨s', hsome, hlog, -, -, -⟩ :=
    complete_task_some (DEFAULT_STATE 0) 7 "t" "Noob" _ rfl
  have hfp : freshPlayedState = s' := by
    unfold freshPlayedState
    rw [hsome]
    rfl
  have hlen : freshPlayedState.tasks.log.length = 1 := by
    rw [hfp, hlog]
    rfl
  refine ⟨hlen, rfl, ?_, rfl, rfl, rfl⟩
  have : (respawn_aliased freshPlayedState freshPlayedState).tasks.log
      = freshPlayedState.tasks.log := rfl
  rw [this, hfp, hlog]
  simp


theorem check_in_achievements (today : Int) (s : State) :
    s.achievements.level_badges ⊆ (check_in today s).1.achievements.level_badges ∧
    s.achievements.special ⊆ (check_in today s).1.achievements.special := by
  unfold check_in
  split
  · exact ⟨fun x h => h, fun x h => h⟩
  · dsimp only
    split
    · constructor
      · intro x hx
        simp only [add_log]
        exact add_xp_badges_mono _ 20 hx
      · intro x hx
        simp only [add_log]
        rw [add_xp_special]
        exact hx
    · exact ⟨fun x h => h, fun x h => h⟩

theorem complete_task_achievements (s : State) (now : Int) (t d : String) (s' : State)
    (h : complete_task s now t d = some s') :
    s.achievements.level_badges ⊆ s'.achievements.level_badges ∧
    s.achievements.special ⊆ s'.achievements.special := by
  cases hb : s.tasks.counts.bump d with
  | none =>
    simp only [complete_task, hb] at h
    cases h
  | some c1 =>
    simp only [complete_task, hb, Option.some.injEq] at h
    subst h
    constructor
    · rw [check_special_badges]
      simp only [add_log]
      intro x hx
      exact add_xp_badges_mono _ _ hx
    · intro x hx
      unfold check_special_achievements
      refine specialLoop_special_mono _ _ _ ?_
      simp only [add_log]
      rw [add_xp_special]
      exact hx

theorem claim_daily_achievements (today : Int) (s : State) (qn : String) :
    s.achievements.level_badges ⊆ (claim_daily_quest today s qn).achievements.level_badges ∧
    s.achievements.special ⊆ (claim_daily_quest today s qn).achievements.special := by
  unfold claim_daily_quest
  split
  · exact ⟨fun x h => h, fun x h => h⟩
  · split
    · exact ⟨fun x h => h, fun x h => h⟩
    · constructor
      · intro x hx
        simp only [add_log]
        exact add_xp_badges_mono _ _ hx
      · intro x hx
        simp only [add_log]
        rw [add_xp_special]
        exact hx

theorem claim_weekly_achievements (wk : Int) (s : State) (qn : String) :
    s.achievements.level_badges ⊆ (claim_weekly_quest wk s qn).achievements.level_badges ∧
    s.achievements.special ⊆ (claim_weekly_quest wk s qn).achievements.special := by
  unfold claim_weekly_quest
  split
  · exact ⟨fun x h => h, fun x h => h⟩
  · split
    · exact ⟨fun x h => h, fun x h => h⟩
    · constructor
      · intro x hx
        simp only [add_log]
        exact add_xp_badges_mono _ _ hx
      · intro x hx
        simp only [add_log]
        rw [add_xp_special]
        exact hx

theorem start_pomodoro_achievements (now : Int) (s : State) :
    (start_pomodoro now s).achievements = s.achievements := by
  unfold start_pomodoro
  split <;> rfl

theorem stop_pomodoro_achievements (now : Int) (s : State) :
    (stop_pomodoro now s).achievements = s.achievements := by
  unfold stop_pomodoro
  split <;> rfl

theorem start_session_achievements (now : Int) (s : State) (minutes : Int) :
    (start_session now s minutes).achievements = s.achievements := by
  unfold start_session
  split
  · rfl
  · split <;> rfl

theorem stop_session_achievements (now : Int) (s : State) :
    (stop_session now s).achievements = s.achievements := by
  unfold stop_session
  split
  · dsimp only
    split <;> rfl
  · rfl

/-- C10: every engine operation except respawn — `add_xp`,
`complete_task`, `check_in`, the two quest claims, and the four timer
operations — only ever grows the sets of level badges and special
achievements. -/
theorem C10_achievements_monotone (s : State) (a now today wk minutes : Int)
    (t d qn : String) :
    (s.achievements.level_badges ⊆ (add_xp s a).achievements.level_badges ∧
     s.achievements.special ⊆ (add_xp s a).achievements.special) ∧
    (∀ s', complete_task s now t d = some s' →
       s.achievements.level_badges ⊆ s'.achievements.level_badges ∧
       s.achievements.special ⊆ s'.achievements.special) ∧
    (s.achievements.level_badges ⊆ (check_in today s).1.achievements.level_badges ∧
     s.achievements.special ⊆ (check_in today s).1.achievements.special) ∧
    (s.achievements.level_badges ⊆ (claim_daily_quest today s qn).achievements.level_badges ∧
     s.achievements.special ⊆ (claim_daily_quest today s qn).achievements.special) ∧
    (s.achievements.level_badges ⊆ (claim_weekly_quest wk s qn).achievements.level_badges ∧
     s.achievements.special ⊆ (claim_weekly_quest wk s qn).achievements.special) ∧
    (s.achievements.level_badges ⊆ (start_pomodoro now s).achievements.level_badges ∧
     s.achievements.special ⊆ (start_pomodoro now s).achievements.special) ∧
    (s.achievements.level_badges ⊆ (stop_pomodoro now s).achievements.level_badges ∧
     s.achievements.special ⊆ (stop_pomodoro now s).achievements.special) ∧
    (s.achievements.level_badges ⊆ (start_session now s minutes).achievements.level_badges ∧
     s.achievements.special ⊆ (start_session now s minutes).achievements.special) ∧
    (s.achievements.level_badges ⊆ (stop_session now s).achievements.level_badges ∧
     s.achievements.special ⊆ (stop_session now s).achievements.special) := by
  refine ⟨⟨add_xp_badges_mono s a, ?_⟩,
    fun s' h => complete_task_achievements s now t d s' h,
    check_in_achievements today s,
    claim_daily_achievements today s qn,
    claim_weekly_achievements wk s qn, ?_, ?_, ?_, ?_⟩
  · rw [add_xp_special]
    exact fun x h => h
  · rw [start_pomodoro_achievements]
    exact ⟨fun x h => h, fun x h => h⟩
  · rw [stop_pomodoro_achievements]
    exact ⟨fun x h => h, fun x h => h⟩
  · rw [start_session_achievements]
    exact ⟨fun x h => h, fun x h => h⟩
  · rw [stop_session_achievements]
    exact ⟨fun x h => h, fun x h => h⟩

theorem C10_achievements_monotone_witness :
    ((DEFAULT_STATE 0).achievements.level_badges
        ⊆ (add_xp (DEFAULT_STATE 0) 50).achievements.level_badges ∧
     (DEFAULT_STATE 0).achievements.special
        ⊆ (add_xp (DEFAULT_STATE 0) 50).achievements.special) ∧
    ((DEFAULT_STATE 0).achievements.level_badges
        ⊆ (check_in 3 (DEFAULT_STATE 0)).1.achievements.level_badges ∧
     (DEFAULT_STATE 0).achievements.special
        ⊆ (check_in 3 (DEFAULT_STATE 0)).1.achievements.special) :=
  ⟨(C10_achievements_monotone (DEFAULT_STATE 0) 50 0 3 0 5 "t" "Noob" "Power-Up Workout").1,
   (C10_achievements_monotone (DEFAULT_STATE 0) 50 0 3 0 5 "t" "Noob" "Power-Up Workout").2.2.1⟩
